import Mathlib

/-!
# LiteX-CNC board driver core (`src/litexcnc/driver/litexcnc.c`)

A shallow embedding of the cycle functions `litexcnc_config`, `litexcnc_read`,
`litexcnc_write` and of the registration routine `litexcnc_register`.

* Bytes are natural numbers below 256, buffers are lists of bytes, a cursor
  (`uint8_t *pointer`) is its offset from the start of the buffer it walks.
* Every call that leaves `litexcnc.c` from a cycle function is recorded, in
  program order, as a `Call`.
* The module functions (`watchdog.c` ... `encoder.c`) and the constants of the
  headers are parameters of the model.
-/

namespace LitexCNC

/-! ## Constants of headers that are not part of `litexcnc.c` -/

/-- The macros `litexcnc.c` takes from `hal.h` and `litexcnc.h`. -/
structure Consts where
  HAL_NAME_LEN : Nat
  LITEXCNC_VERSION_MAJOR : Nat
  LITEXCNC_VERSION_MINOR : Nat
  LITEXCNC_VERSION_PATCH : Nat
  LITEXCNC_CONFIG_HEADER_SIZE : Nat
  deriving DecidableEq, Repr

/-- Modelled from the spec: `sizeof(litexcnc_config_header_t)`; the struct is
declared in `litexcnc.h`, and the config header is "a fixed header containing
`loop_cycles` as a 32-bit big-endian integer", so it occupies four bytes. -/
def sizeof_litexcnc_config_header_t : Nat := 4

/-- The value `ENOMEM` of `errno.h`. -/
def ENOMEM : Int := 12

/-- The value `EINVAL` of `errno.h`. -/
def EINVAL : Int := 22

/-! ## Modules and the calls made by the cycle functions -/

/-- The six functional units whose files `litexcnc.c` includes. -/
inductive ModuleKind
  | watchdog | wallclock | gpio | pwm | stepgen | encoder
  deriving DecidableEq, Repr

/-- The order in which the spec declares the modules. -/
def declared_order : List ModuleKind :=
  [.watchdog, .wallclock, .gpio, .pwm, .stepgen, .encoder]

/-- A call leaving a cycle function. Cursors are offsets from the start of the
buffer the cursor was initialised with. -/
inductive Call
  /-- `memset(fpga->read_buffer, 0, size)` -/
  | memset_read (size : Nat)
  /-- `fpga->read(fpga)` -/
  | fpga_read
  /-- `litexcnc_<m>_process_read(litexcnc, &pointer, ..)` entered with the cursor at `cursor` -/
  | process_read (m : ModuleKind) (cursor : Nat)
  /-- `memset(fpga->write_buffer, 0, size)` -/
  | memset_write (size : Nat)
  /-- `litexcnc_<m>_prepare_write(litexcnc, &pointer, ..)` entered with the cursor at `cursor` -/
  | prepare_write (m : ModuleKind) (cursor : Nat)
  /-- `fpga->write(fpga)` -/
  | fpga_write
  /-- `LITEXCNC_WARN("Read and write functions in incorrect order ...")` -/
  | warn_order
  /-- `litexcnc_<m>_config(litexcnc, &pointer, period)` entered with the cursor at `cursor` -/
  | module_config (m : ModuleKind) (cursor : Nat)
  /-- `fpga->write_config(fpga, buffer, size)` with the contents of `buffer` at the call -/
  | write_config (buffer : List Nat) (size : Nat)
  deriving DecidableEq, Repr

/-- The module functions, which live in the included files: each receives the
address of the cursor and moves it; `config` also writes the config buffer.
`period` is handed to every one of them here, the functions that do not take
it in C ignore it. -/
structure ModuleOps where
  config : ModuleKind → Int → List Nat × Nat → List Nat × Nat
  process_read : ModuleKind → Int → Nat → Nat
  prepare_write : ModuleKind → Int → Nat → Nat

/-- The fields of `litexcnc_t` (and of the `litexcnc_fpga_t` it points to)
that the cycle functions use. -/
structure litexcnc_t where
  clock_frequency : Nat
  read_loop_has_run : Bool
  write_loop_has_run : Bool
  read_buffer_size : Nat
  write_buffer_size : Nat
  deriving DecidableEq, Repr

/-! ## `loop_cycles`: the binary64 computation of `litexcnc_config` -/

/-- Number of halvings that bring `n` below `2^53` (`fuel` bounds the search;
`n` itself always suffices). -/
def excess_bits : Nat → Nat → Nat
  | 0, _ => 0
  | fuel + 1, n => if n < 2 ^ 53 then 0 else excess_bits fuel (n / 2) + 1

/-- Rounding of an exact non-negative value to the 53 significant bits of a
binary64 number, to nearest, ties to even. Scaling by a power of two commutes
with this rounding, so the same function rounds values counted in units of
`2^-82`. -/
def round53 (n : Nat) : Nat :=
  let k := excess_bits n n
  let q := n / 2 ^ k
  let r := n % 2 ^ k
  if 2 ^ k < 2 * r ∨ (2 * r = 2 ^ k ∧ q % 2 = 1) then (q + 1) * 2 ^ k else q * 2 ^ k

/-- The literal `0.000000001` as a binary64 number is
`4835703278458517 * 2^-82` (bit pattern `0x3E112E0BE826D695`). -/
def DOUBLE_1E_9_MANTISSA : Nat := 4835703278458517

/-- The value of `(int32_t)((double) clock_frequency * period * 0.000000001)`:
both operands are converted to binary64, each product is rounded, the cast
truncates toward zero. The sign of `period` is carried separately, rounding
and truncation being symmetric. A result outside the `int32_t` range is
undefined in C. -/
def loop_cycles (clock_frequency : Nat) (period : Int) : Int :=
  let x := round53 (round53 clock_frequency * round53 period.natAbs)
  let y := round53 (x * DOUBLE_1E_9_MANTISSA)
  let t : Nat := y / 2 ^ 82
  if period < 0 then -(t : Int) else (t : Int)

/-- The four bytes that `htobe32(v)` leaves in memory, lowest address first
(`v` converted to `uint32_t`). -/
def htobe32 (v : Int) : List Nat :=
  let u := (v % 2 ^ 32).toNat
  [u / 2 ^ 24 % 256, u / 2 ^ 16 % 256, u / 2 ^ 8 % 256, u % 256]

/-- `memcpy(buf + off, data, data.length)` on a buffer that holds the range. -/
def memcpy (buf : List Nat) (off : Nat) (data : List Nat) : List Nat :=
  buf.take off ++ data ++ buf.drop (off + data.length)

/-! ## The cycle functions -/

/-- Lines 57-68 of `litexcnc_config`: the zeroed config buffer with the header
stored, and the cursor behind the header. -/
def litexcnc_config_header (C : Consts) (litexcnc : litexcnc_t) (period : Int) :
    List Nat × Nat :=
  let config_buffer := List.replicate C.LITEXCNC_CONFIG_HEADER_SIZE 0
  let pointer := 0
  let config_data := htobe32 (loop_cycles litexcnc.clock_frequency period)
  let config_buffer := memcpy config_buffer pointer config_data
  (config_buffer, pointer + sizeof_litexcnc_config_header_t)

/-- `litexcnc_config`: of the six module config functions only
`litexcnc_stepgen_config` is called (the other five calls are commented out
in the source); the buffer goes to `write_config` with the length
`LITEXCNC_CONFIG_HEADER_SIZE`. -/
def litexcnc_config (C : Consts) (ops : ModuleOps) (litexcnc : litexcnc_t) (period : Int) :
    List Call :=
  let h := litexcnc_config_header C litexcnc period
  let s := ops.config .stepgen period h
  [.module_config .stepgen h.2, .write_config s.1 C.LITEXCNC_CONFIG_HEADER_SIZE]

/-- `litexcnc_read`: the new board state and the calls made. -/
def litexcnc_read (ops : ModuleOps) (litexcnc : litexcnc_t) (period : Int) :
    litexcnc_t × List Call :=
  if !litexcnc.read_loop_has_run then
    ({ litexcnc with read_loop_has_run := true }, [])
  else
    let p0 := 0
    let p1 := ops.process_read .watchdog period p0
    let p2 := ops.process_read .wallclock period p1
    let p3 := ops.process_read .gpio period p2
    let p4 := ops.process_read .pwm period p3
    let p5 := ops.process_read .stepgen period p4
    (litexcnc,
      [.memset_read litexcnc.read_buffer_size, .fpga_read,
       .process_read .watchdog p0, .process_read .wallclock p1,
       .process_read .gpio p2, .process_read .pwm p3,
       .process_read .stepgen p4, .process_read .encoder p5])

/-- `litexcnc_write`: the new board state and the calls made. -/
def litexcnc_write (C : Consts) (ops : ModuleOps) (litexcnc : litexcnc_t) (period : Int) :
    litexcnc_t × List Call :=
  if !litexcnc.write_loop_has_run then
    let warn := if !litexcnc.read_loop_has_run then [Call.warn_order] else []
    ({ litexcnc with write_loop_has_run := true },
      warn ++ litexcnc_config C ops litexcnc period)
  else
    let p0 := 0
    let p1 := ops.prepare_write .watchdog period p0
    let p2 := ops.prepare_write .wallclock period p1
    let p3 := ops.prepare_write .gpio period p2
    let p4 := ops.prepare_write .pwm period p3
    let p5 := ops.prepare_write .stepgen period p4
    (litexcnc,
      [.memset_write litexcnc.write_buffer_size,
       .prepare_write .watchdog p0, .prepare_write .wallclock p1,
       .prepare_write .gpio p2, .prepare_write .pwm p3,
       .prepare_write .stepgen p4, .prepare_write .encoder p5,
       .fpga_write])

/-- One invocation of an exported function by the HAL thread. -/
inductive Invocation
  | read (period : Int)
  | write (period : Int)
  deriving DecidableEq, Repr

/-- Whether an invocation is one of `litexcnc_write`. -/
def Invocation.is_write : Invocation → Bool
  | .write _ => true
  | .read _ => false

/-- One invocation on a board state. -/
def invoke (C : Consts) (ops : ModuleOps) (litexcnc : litexcnc_t) :
    Invocation → litexcnc_t × List Call
  | .read period => litexcnc_read ops litexcnc period
  | .write period => litexcnc_write C ops litexcnc period

/-- The board state after a sequence of invocations. -/
def state_after (C : Consts) (ops : ModuleOps) : litexcnc_t → List Invocation → litexcnc_t
  | litexcnc, [] => litexcnc
  | litexcnc, i :: is => state_after C ops (invoke C ops litexcnc i).1 is

/-- All calls made during a sequence of invocations, in order. -/
def trace (C : Consts) (ops : ModuleOps) : litexcnc_t → List Invocation → List Call
  | _, [] => []
  | litexcnc, i :: is =>
    (invoke C ops litexcnc i).2 ++ trace C ops (invoke C ops litexcnc i).1 is

/-- Whether a call is one of the transport's `write_config`. -/
def Call.is_write_config : Call → Bool
  | .write_config _ _ => true
  | _ => false

/-- Whether a call is one of the transport's `write`. -/
def Call.is_fpga_write : Call → Bool
  | .fpga_write => true
  | _ => false

/-- Whether a call is one of the transport's `read`. -/
def Call.is_fpga_read : Call → Bool
  | .fpga_read => true
  | _ => false

/-- Whether a call is a module's `process_read`. -/
def Call.is_process_read : Call → Bool
  | .process_read _ _ => true
  | _ => false

/-! ## Registration -/

/-- `isprint` of `rtapi_ctype.h` in the C locale, on a byte. -/
def isprint (c : Nat) : Bool := 0x20 ≤ c && c ≤ 0x7e

/-- The bytes of the string literal `"litexcnc.0"`. -/
def default_board_name : List Nat := [108, 105, 116, 101, 120, 99, 110, 99, 46, 48]

/-- The loop of lines 246-253 with `remaining` iterations left and the loop
variable at `i`: `some i` is the value of `i` behind the loop, `none` is the
jump to `fail1` at a non-printable byte. -/
def name_scan (name : List Nat) : Nat → Nat → Option Nat
  | 0, i => some i
  | remaining + 1, i =>
    if name.getD i 0 = 0 then some i
    else if !isprint (name.getD i 0) then none
    else name_scan name remaining (i + 1)

/-- Lines 244-263, the check of `fpga->name`: `some r` is the jump to `fail1`
with that `r`, `none` lets registration go on. -/
def board_name_check (C : Consts) (name : List Nat) : Option Int :=
  match name_scan name (C.HAL_NAME_LEN + 1) 0 with
  | none => some (-EINVAL)
  | some i =>
    if i = C.HAL_NAME_LEN + 1 then some (-EINVAL)
    else if i = 0 then some (-EINVAL)
    else none

/-- Lines 196-222, the value of `r` in front of `if (r != 0)`: `verify_config`
is the transport's answer, `version` and `fingerprint` the fields of the
transport, `config_fingerprint` the CRC of the configuration file. -/
def compat_gate (C : Consts) (verify_config : Int) (version config_fingerprint fingerprint : Nat) :
    Int :=
  if verify_config = 0 then
    let r : Int :=
      if (version >>> 16) &&& 0xff ≠ C.LITEXCNC_VERSION_MAJOR ∨
          (version >>> 8) &&& 0xff ≠ C.LITEXCNC_VERSION_MINOR then -1
      else verify_config
    if config_fingerprint ≠ fingerprint then -1 else r
  else verify_config

/-- Whether the branch of line 207 that prints the patch-version message is taken. -/
def patch_message (C : Consts) (verify_config : Int) (version : Nat) : Bool :=
  verify_config = 0 &&
    !((version >>> 16) &&& 0xff ≠ C.LITEXCNC_VERSION_MAJOR ∨
      (version >>> 8) &&& 0xff ≠ C.LITEXCNC_VERSION_MINOR) &&
    (version &&& 0xff ≠ C.LITEXCNC_VERSION_PATCH)

/-- The parsed configuration document, as far as `litexcnc_register` looks at it. -/
structure Config where
  /-- With the key `board_name` present: the bytes `rtapi_snprintf` leaves in `fpga->name`. -/
  board_name : Option (List Nat)
  /-- With the key `clock_frequency` present: the value stored in `litexcnc->clock_frequency`. -/
  clock_frequency : Option Nat

/-- What the environment answers to the calls of one run of `litexcnc_register`. -/
structure RegisterEnv where
  /-- `rtapi_kmalloc(sizeof(litexcnc_t), ..)`: the address, `none` for `NULL` -/
  board : Option Nat
  /-- `crc32` over the bytes of the configuration file -/
  config_fingerprint : Nat
  /-- `fpga->verify_config(fpga)` -/
  verify_config : Int
  /-- `fpga->version` -/
  version : Nat
  /-- `fpga->fingerprint` -/
  fingerprint : Nat
  /-- `json_object_from_file(config_file)`, `none` for `NULL` -/
  config : Option Config
  /-- the bytes of `fpga->name` on entry -/
  fpga_name : List Nat
  /-- `litexcnc_<m>_init(litexcnc, config)` -/
  module_init : ModuleKind → Int
  /-- `LITEXCNC_BOARD_DATA_WRITE_SIZE(litexcnc)` -/
  write_size : Nat
  /-- `LITEXCNC_BOARD_DATA_READ_SIZE(litexcnc)` -/
  read_size : Nat
  /-- `rtapi_kmalloc` of the write buffer, `none` for `NULL` -/
  write_buffer : Option Nat
  /-- `rtapi_kmalloc` of the read buffer, `none` for `NULL` -/
  read_buffer : Option Nat
  /-- `hal_export_funct` of the read function -/
  export_read : Int
  /-- `hal_export_funct` of the write function -/
  export_write : Int
  /-- `fpga->post_register(fpga)` -/
  post_register : Int
  /-- `fpga->reset(fpga)` -/
  reset : Int

/-- The calls of `litexcnc_register` that the model records. -/
inductive RegCall
  | kmalloc_board
  | list_add_tail (litexcnc : Nat)
  | crc32
  | verify_config
  | json_object_from_file
  | module_init (m : ModuleKind)
  | kmalloc_buffer (size : Nat)
  /-- `memset(buffer, 0, size)`, `none` for a `NULL` buffer -/
  | memset_buffer (buffer : Option Nat) (size : Nat)
  | hal_export_funct_read
  | hal_export_funct_write
  | post_register
  | reset
  | cleanup
  | list_del (litexcnc : Nat)
  | kfree (litexcnc : Nat)
  deriving DecidableEq, Repr

/-- What one run of `litexcnc_register` leaves behind. -/
structure RegisterResult where
  calls : List RegCall
  /-- the value returned; `none` when the run does not return because `NULL`
  was handed to `memset` (a buffer) or to `fseek` (the configuration file) -/
  result : Option Int
  /-- the registry `litexcnc_list`, as the addresses of its instances -/
  litexcnc_list : List Nat
  /-- the instance the run leaves in the registry -/
  board : Option litexcnc_t
  deriving DecidableEq, Repr

/-- `rtapi_list_add_tail(&litexcnc->list, &litexcnc_list)` -/
def rtapi_list_add_tail (litexcnc : Nat) (litexcnc_list : List Nat) : List Nat :=
  litexcnc_list ++ [litexcnc]

/-- `rtapi_list_del(&litexcnc->list)` -/
def rtapi_list_del (litexcnc : Nat) (litexcnc_list : List Nat) : List Nat :=
  litexcnc_list.erase litexcnc

/-- The label `fail0`. -/
def fail0 (calls : List RegCall) (litexcnc_list : List Nat) (litexcnc : Nat) (r : Int) :
    RegisterResult :=
  { calls := calls ++ [.list_del litexcnc, .kfree litexcnc]
    result := some r
    litexcnc_list := rtapi_list_del litexcnc litexcnc_list
    board := none }

/-- The label `fail1`: `litexcnc_cleanup`, whose body is empty, then `fail0`. -/
def fail1 (calls : List RegCall) (litexcnc_list : List Nat) (litexcnc : Nat) (r : Int) :
    RegisterResult :=
  fail0 (calls ++ [.cleanup]) litexcnc_list litexcnc r

/-- Lines 364-377 of `litexcnc_register`: the post-registration hook, the
reset of the board and `return 0`. -/
def register_finish (env : RegisterEnv) (litexcnc_list : List Nat) (litexcnc : Nat)
    (clock_frequency : Nat) (calls : List RegCall) : RegisterResult :=
  let calls := calls ++ [.post_register]
  if env.post_register ≠ 0 then fail1 calls litexcnc_list litexcnc env.post_register else
  let calls := calls ++ [.reset]
  if env.reset ≠ 0 then fail1 calls litexcnc_list litexcnc env.reset else
  { calls := calls
    result := some 0
    litexcnc_list := litexcnc_list
    board := some
      { clock_frequency := clock_frequency
        read_loop_has_run := false
        write_loop_has_run := false
        read_buffer_size := env.read_size
        write_buffer_size := env.write_size } }

/-- Lines 335-362 of `litexcnc_register`: the export of the read and of the
write function. -/
def register_export (env : RegisterEnv) (litexcnc_list : List Nat) (litexcnc : Nat)
    (clock_frequency : Nat) (calls : List RegCall) : RegisterResult :=
  let calls := calls ++ [.hal_export_funct_read]
  if env.export_read ≠ 0 then fail1 calls litexcnc_list litexcnc (-EINVAL) else
  let calls := calls ++ [.hal_export_funct_write]
  if env.export_write ≠ 0 then fail1 calls litexcnc_list litexcnc (-EINVAL) else
  register_finish env litexcnc_list litexcnc clock_frequency calls

/-- Lines 310-333 of `litexcnc_register`: the write and the read buffer. The
tests of lines 316 and 327 are on `litexcnc`, not on the buffer just
allocated; a `NULL` buffer reaches `memset`, where the run ends without a
return. -/
def register_buffers (env : RegisterEnv) (litexcnc_list : List Nat) (litexcnc : Nat)
    (clock_frequency : Nat) (calls : List RegCall) : RegisterResult :=
  let calls := calls ++ [.kmalloc_buffer env.write_size]
  if env.board = none then fail1 calls litexcnc_list litexcnc (-ENOMEM) else
  let calls := calls ++ [.memset_buffer env.write_buffer env.write_size]
  if env.write_buffer = none then
    { calls := calls, result := none, litexcnc_list := litexcnc_list, board := none } else
  let calls := calls ++ [.kmalloc_buffer env.read_size]
  if env.board = none then fail1 calls litexcnc_list litexcnc (-ENOMEM) else
  let calls := calls ++ [.memset_buffer env.read_buffer env.read_size]
  if env.read_buffer = none then
    { calls := calls, result := none, litexcnc_list := litexcnc_list, board := none } else
  register_export env litexcnc_list litexcnc clock_frequency calls

/-- Lines 276-307 of `litexcnc_register`, entered with `r` as the gate left
it: the six module inits. -/
def register_modules (env : RegisterEnv) (litexcnc_list : List Nat) (litexcnc : Nat)
    (clock_frequency : Nat) (calls : List RegCall) (r : Int) : RegisterResult :=
  let calls := calls ++ [.module_init .watchdog]
  if env.module_init .watchdog < 0 then fail0 calls litexcnc_list litexcnc r else
  let calls := calls ++ [.module_init .wallclock]
  if env.module_init .wallclock < 0 then fail0 calls litexcnc_list litexcnc r else
  let calls := calls ++ [.module_init .gpio]
  if env.module_init .gpio < 0 then fail0 calls litexcnc_list litexcnc r else
  let calls := calls ++ [.module_init .pwm]
  if env.module_init .pwm < 0 then fail0 calls litexcnc_list litexcnc r else
  let calls := calls ++ [.module_init .stepgen]
  if env.module_init .stepgen < 0 then fail0 calls litexcnc_list litexcnc r else
  let calls := calls ++ [.module_init .encoder]
  if env.module_init .encoder < 0 then fail0 calls litexcnc_list litexcnc r else
  register_buffers env litexcnc_list litexcnc clock_frequency calls

/-- Lines 236-243: the contents of `fpga->name` behind `rtapi_snprintf`, the
default name when the key `board_name` is missing. -/
def board_name_of (env : RegisterEnv) (config : Config) : List Nat :=
  match config.board_name with
  | none => memcpy env.fpga_name 0 (default_board_name ++ [0])
  | some name => name

/-- `litexcnc_register` on the registry `litexcnc_list`, for a run in which
the `fopen` of line 185 gave a stream: the calls of lines 185-192 on it leave
the CRC `env.config_fingerprint`. The run with `NULL` from `fopen` is in
`litexcnc_register_file`. -/
def litexcnc_register (C : Consts) (env : RegisterEnv) (litexcnc_list : List Nat) :
    RegisterResult :=
  match env.board with
  | none =>
    { calls := [.kmalloc_board], result := some (-ENOMEM), litexcnc_list := litexcnc_list,
      board := none }
  | some litexcnc =>
    let litexcnc_list := rtapi_list_add_tail litexcnc litexcnc_list
    let calls := [.kmalloc_board, .list_add_tail litexcnc, .crc32, .verify_config]
    let r := compat_gate C env.verify_config env.version env.config_fingerprint env.fingerprint
    if r ≠ 0 then fail0 calls litexcnc_list litexcnc r else
    let calls := calls ++ [.json_object_from_file]
    match env.config with
    | none => fail0 calls litexcnc_list litexcnc r
    | some config =>
      match board_name_check C (board_name_of env config) with
      | some e => fail1 calls litexcnc_list litexcnc e
      | none =>
        match config.clock_frequency with
        | none => fail1 calls litexcnc_list litexcnc r
        | some clock_frequency =>
          register_modules env litexcnc_list litexcnc clock_frequency calls r

/-- `litexcnc_register` with the `fopen` of line 185, whose result is not
checked: `fileptr` is the stream, `none` for `NULL`. With `NULL` the
`fseek(fileptr, 0, SEEK_END)` of line 186 gets a null stream and the run does
not return, the instance being in the registry since line 177; with a stream
the run is the one of `litexcnc_register`. -/
def litexcnc_register_file (C : Consts) (fileptr : Option Nat) (env : RegisterEnv)
    (litexcnc_list : List Nat) : RegisterResult :=
  match env.board with
  | none => litexcnc_register C env litexcnc_list
  | some litexcnc =>
    if fileptr = none then
      { calls := [.kmalloc_board, .list_add_tail litexcnc]
        result := none
        litexcnc_list := rtapi_list_add_tail litexcnc litexcnc_list
        board := none }
    else litexcnc_register C env litexcnc_list

/-- The hook and the reset succeed. -/
def finish_succeeds (env : RegisterEnv) : Prop :=
  env.post_register = 0 ∧ env.reset = 0

/-- Both exports, the hook and the reset succeed. -/
def export_succeeds (env : RegisterEnv) : Prop :=
  env.export_read = 0 ∧ env.export_write = 0 ∧ finish_succeeds env

/-- All three allocations and what follows them succeed. -/
def buffers_succeed (env : RegisterEnv) : Prop :=
  env.board ≠ none ∧ env.write_buffer ≠ none ∧ env.read_buffer ≠ none ∧ export_succeeds env

/-- The six module inits and what follows them succeed. -/
def modules_succeed (env : RegisterEnv) : Prop :=
  (∀ m, 0 ≤ env.module_init m) ∧ buffers_succeed env

/-- How a run that has put the instance `litexcnc` into the registry, which
then reads `litexcnc_list`, and has made the calls `calls` can end, `ok`
saying that all remaining steps succeed: registered (returns 0, registry
kept), rolled back (returns, instance deleted from the registry), or no
return (`NULL` from a buffer allocation handed to `memset`). -/
def ends_as (env : RegisterEnv) (litexcnc_list : List Nat) (litexcnc : Nat) (ok : Prop)
    (calls : List RegCall) (out : RegisterResult) : Prop :=
  (∀ x ∈ calls, x ∈ out.calls) ∧
  ((ok ∧ out.result = some 0 ∧ out.litexcnc_list = litexcnc_list ∧ out.board ≠ none) ∨
   (¬ ok ∧ (∃ r, out.result = some r) ∧
      out.litexcnc_list = rtapi_list_del litexcnc litexcnc_list ∧ out.board = none) ∨
   (¬ ok ∧ out.result = none ∧ (env.write_buffer = none ∨ env.read_buffer = none)))

/-! ## Helpers for the statements -/

/-- The module a `process_read` call goes to. -/
def Call.read_module : Call → Option ModuleKind
  | .process_read m _ => some m
  | _ => none

/-- The module a `prepare_write` call goes to. -/
def Call.write_module : Call → Option ModuleKind
  | .prepare_write m _ => some m
  | _ => none

/-- The module a config call goes to. -/
def Call.config_module : Call → Option ModuleKind
  | .module_config m _ => some m
  | _ => none

/-- Where the segment of module `m` starts when every module occupies `size`
bytes: the sum of the sizes of the modules declared before it. -/
def segment_start (size : ModuleKind → Nat) (m : ModuleKind) : Nat :=
  ((declared_order.takeWhile (fun m' => m' ≠ m)).map size).sum

/-! ## Concrete inputs -/

/-- Constants as a build could have them (`HAL_NAME_LEN` is 47 in LinuxCNC). -/
def sample_consts : Consts :=
  { HAL_NAME_LEN := 47
    LITEXCNC_VERSION_MAJOR := 1
    LITEXCNC_VERSION_MINOR := 0
    LITEXCNC_VERSION_PATCH := 2
    LITEXCNC_CONFIG_HEADER_SIZE := 16 }

/-- Sizes of the read segments of the sample modules. -/
def sample_read_size : ModuleKind → Nat
  | .watchdog => 4 | .wallclock => 8 | .gpio => 4 | .pwm => 0 | .stepgen => 12 | .encoder => 8

/-- Sizes of the write segments of the sample modules. -/
def sample_write_size : ModuleKind → Nat
  | .watchdog => 4 | .wallclock => 0 | .gpio => 4 | .pwm => 12 | .stepgen => 16 | .encoder => 4

/-- Config segments of the sample modules. -/
def sample_config_data : ModuleKind → List Nat
  | .watchdog => [1, 1, 1, 1] | .wallclock => [] | .gpio => [3, 3] | .pwm => [4]
  | .stepgen => [5, 5, 5, 5, 5, 5, 5, 5] | .encoder => [6, 6]

/-- Sample modules that write their segment at the cursor and advance the
cursor by the size of the segment. -/
def sample_ops : ModuleOps :=
  { config := fun m _ s => (memcpy s.1 s.2 (sample_config_data m), s.2 + (sample_config_data m).length)
    process_read := fun m _ c => c + sample_read_size m
    prepare_write := fun m _ c => c + sample_write_size m }

/-- A board as registration leaves it: 100 MHz clock, both flags false. -/
def sample_board : litexcnc_t :=
  { clock_frequency := 100000000
    read_loop_has_run := false
    write_loop_has_run := false
    read_buffer_size := 36
    write_buffer_size := 40 }

/-- A registry that already holds two boards. -/
def sample_registry : List Nat := [1024, 2048]

/-- Answers under which every step of registration succeeds: firmware 1.0.2
with the fingerprint of the configuration file, a configuration without
`board_name` and with a clock of 100 MHz. -/
def sample_env : RegisterEnv :=
  { board := some 4096
    config_fingerprint := 0xCAFEF00D
    verify_config := 0
    version := 0x010002
    fingerprint := 0xCAFEF00D
    config := some { board_name := none, clock_frequency := some 100000000 }
    fpga_name := List.replicate 48 0
    module_init := fun _ => 0
    write_size := 40
    read_size := 36
    write_buffer := some 8192
    read_buffer := some 12288
    export_read := 0
    export_write := 0
    post_register := 0
    reset := 0 }

/-- A name buffer of 48 bytes holding `"litexcnc.0"`. -/
def sample_name : List Nat := default_board_name ++ List.replicate 38 0

/-! ## Cycle functions: facts shared by the theorems below -/

theorem read_keeps_write_flag (ops : ModuleOps) (l : litexcnc_t) (period : Int) :
    (litexcnc_read ops l period).1.write_loop_has_run = l.write_loop_has_run := by
  unfold litexcnc_read
  split <;> rfl

theorem read_makes_no_write_call (ops : ModuleOps) (l : litexcnc_t) (period : Int) :
    ∀ c ∈ (litexcnc_read ops l period).2, c.is_write_config = false ∧ c.is_fpga_write = false := by
  unfold litexcnc_read
  split
  · simp
  · simp [Call.is_write_config, Call.is_fpga_write]

theorem config_calls (C : Consts) (ops : ModuleOps) (l : litexcnc_t) (period : Int) :
    (litexcnc_config C ops l period).countP Call.is_write_config = 1 ∧
    (litexcnc_config C ops l period).countP Call.is_fpga_write = 0 := by
  simp [litexcnc_config, List.countP_cons, Call.is_write_config, Call.is_fpga_write]

theorem first_write (C : Consts) (ops : ModuleOps) (l : litexcnc_t) (period : Int)
    (hw : l.write_loop_has_run = false) :
    (litexcnc_write C ops l period).1.write_loop_has_run = true ∧
    (litexcnc_write C ops l period).2.countP Call.is_write_config = 1 ∧
    (litexcnc_write C ops l period).2.countP Call.is_fpga_write = 0 := by
  have hc := config_calls C ops l period
  unfold litexcnc_write
  rw [hw]
  cases l.read_loop_has_run <;>
    simp [List.countP_cons, Call.is_write_config, Call.is_fpga_write, hc.1, hc.2]

theorem later_write (C : Consts) (ops : ModuleOps) (l : litexcnc_t) (period : Int)
    (hw : l.write_loop_has_run = true) :
    (litexcnc_write C ops l period).1 = l ∧
    (litexcnc_write C ops l period).2.countP Call.is_fpga_write = 1 ∧
    (litexcnc_write C ops l period).2.countP Call.is_write_config = 0 := by
  unfold litexcnc_write
  rw [hw]
  simp [List.countP_cons, Call.is_write_config, Call.is_fpga_write]

theorem invoke_keeps_configured (C : Consts) (ops : ModuleOps) (l : litexcnc_t) (i : Invocation)
    (hw : l.write_loop_has_run = true) : (invoke C ops l i).1.write_loop_has_run = true := by
  cases i with
  | read period => simpa [invoke, read_keeps_write_flag] using hw
  | write period => simpa [invoke, (later_write C ops l period hw).1] using hw

theorem state_after_keeps_configured (C : Consts) (ops : ModuleOps) (invs : List Invocation) :
    ∀ l : litexcnc_t, l.write_loop_has_run = true →
      (state_after C ops l invs).write_loop_has_run = true := by
  induction invs with
  | nil => intro l hw; simpa [state_after] using hw
  | cons i is ih =>
    intro l hw
    exact ih _ (invoke_keeps_configured C ops l i hw)

theorem state_after_reads (C : Consts) (ops : ModuleOps) (invs : List Invocation) :
    ∀ l : litexcnc_t, (∀ i ∈ invs, i.is_write = false) →
      (state_after C ops l invs).write_loop_has_run = l.write_loop_has_run := by
  induction invs with
  | nil => intro l _; rfl
  | cons i is ih =>
    intro l h
    have hi := h i (List.mem_cons_self _ _)
    cases i with
    | write period => simp [Invocation.is_write] at hi
    | read period =>
      have := ih (litexcnc_read ops l period).1 (fun j hj => h j (List.mem_cons_of_mem _ hj))
      simpa [state_after, invoke, read_keeps_write_flag] using this

theorem state_after_some_write (C : Consts) (ops : ModuleOps) (invs : List Invocation) :
    ∀ l : litexcnc_t, (∃ i ∈ invs, i.is_write = true) →
      (state_after C ops l invs).write_loop_has_run = true := by
  induction invs with
  | nil => intro l h; simp at h
  | cons i is ih =>
    intro l h
    cases i with
    | write period =>
      cases hw : l.write_loop_has_run with
      | true => exact state_after_keeps_configured C ops _ l hw
      | false =>
        exact state_after_keeps_configured C ops is _ (first_write C ops l period hw).1
    | read period =>
      obtain ⟨j, hj, hjw⟩ := h
      rcases List.mem_cons.mp hj with rfl | hj
      · simp [Invocation.is_write] at hjw
      · exact ih _ ⟨j, hj, hjw⟩

theorem trace_configured (C : Consts) (ops : ModuleOps) (invs : List Invocation) :
    ∀ l : litexcnc_t, l.write_loop_has_run = true →
      (trace C ops l invs).countP Call.is_write_config = 0 := by
  induction invs with
  | nil => intro l _; simp [trace]
  | cons i is ih =>
    intro l hw
    have h2 := ih _ (invoke_keeps_configured C ops l i hw)
    cases i with
    | read period =>
      have h1 : (litexcnc_read ops l period).2.countP Call.is_write_config = 0 := by
        rw [List.countP_eq_zero]
        intro c hc
        simp [(read_makes_no_write_call ops l period c hc).1]
      simp only [trace, invoke, List.countP_append] at h2 ⊢
      omega
    | write period =>
      have h1 := (later_write C ops l period hw).2.2
      simp only [trace, invoke, List.countP_append] at h2 ⊢
      omega

theorem trace_count (C : Consts) (ops : ModuleOps) (invs : List Invocation) :
    ∀ l : litexcnc_t, l.write_loop_has_run = false →
      (trace C ops l invs).countP Call.is_write_config =
        if invs.any Invocation.is_write then 1 else 0 := by
  induction invs with
  | nil => intro l _; simp [trace]
  | cons i is ih =>
    intro l hw
    cases i with
    | read period =>
      have h1 : (litexcnc_read ops l period).2.countP Call.is_write_config = 0 := by
        rw [List.countP_eq_zero]
        intro c hc
        simp [(read_makes_no_write_call ops l period c hc).1]
      have h2 := ih (litexcnc_read ops l period).1 (by rw [read_keeps_write_flag]; exact hw)
      simp only [trace, invoke, List.countP_append, List.any_cons, Invocation.is_write,
        Bool.false_or] at h2 ⊢
      omega
    | write period =>
      have h1 := first_write C ops l period hw
      have h2 := trace_configured C ops is _ h1.1
      simp only [trace, invoke, List.countP_append, List.any_cons, Invocation.is_write,
        Bool.true_or] at h2 ⊢
      simp [h1.2.1, h2]

theorem split_behind (A B pre post : List Call) (x : Call) (hx : x ∉ A)
    (h : A ++ B = pre ++ x :: post) : ∃ pre', pre = A ++ pre' ∧ B = pre' ++ x :: post := by
  rcases List.append_eq_append_iff.mp h with ⟨a', h1, h2⟩ | ⟨c', h1, h2⟩
  · exact ⟨a', h1, h2⟩
  · cases c' with
    | nil =>
      refine ⟨[], ?_, ?_⟩
      · simpa using h1.symm
      · simpa using h2.symm
    | cons y ys =>
      exfalso
      apply hx
      have : x = y := by
        have := h2
        simp at this
        exact this.1
      rw [h1, this]
      simp

theorem write_config_before_write (C : Consts) (ops : ModuleOps) (invs : List Invocation) :
    ∀ (l : litexcnc_t), l.write_loop_has_run = false →
      ∀ pre post, trace C ops l invs = pre ++ Call.fpga_write :: post →
        ∃ c ∈ pre, c.is_write_config = true := by
  induction invs with
  | nil => intro l _ pre post h; simp [trace] at h
  | cons i is ih =>
    intro l hw pre post h
    cases i with
    | read period =>
      have hx : Call.fpga_write ∉ (litexcnc_read ops l period).2 := by
        intro hm
        have := (read_makes_no_write_call ops l period _ hm).2
        simp [Call.is_fpga_write] at this
      obtain ⟨pre', rfl, h2⟩ := split_behind _ _ pre post _ hx h
      obtain ⟨c, hc, hcw⟩ := ih (litexcnc_read ops l period).1
        (by rw [read_keeps_write_flag]; exact hw) pre' post h2
      exact ⟨c, List.mem_append_right _ hc, hcw⟩
    | write period =>
      have h1 := first_write C ops l period hw
      have hx : Call.fpga_write ∉ (litexcnc_write C ops l period).2 := by
        intro hm
        have h0 := h1.2.2
        rw [List.countP_eq_zero] at h0
        exact h0 _ hm (by simp [Call.is_fpga_write])
      obtain ⟨pre', rfl, _⟩ := split_behind _ _ pre post _ hx h
      have hpos : 0 < (litexcnc_write C ops l period).2.countP Call.is_write_config := by
        rw [h1.2.1]; exact Nat.one_pos
      obtain ⟨c, hc, hcw⟩ := List.countP_pos_iff.mp hpos
      exact ⟨c, List.mem_append_left _ hc, hcw⟩

/-- C1: on a board that has not run `litexcnc_write` yet, as registration
leaves it (whatever `read_loop_has_run` is), the first `litexcnc_write`, after
any number of `litexcnc_read` calls, calls `write_config` exactly once and the
transport's `write` not at all; every later `litexcnc_write` calls the
transport's `write` once and `write_config` not at all; over a whole sequence
`write_config` is called exactly once if the sequence holds a write (and never
otherwise), and every call of the transport's `write` has the `write_config`
call in front of it. -/
theorem config_handshake_once_and_first (C : Consts) (ops : ModuleOps) (l : litexcnc_t)
    (hw : l.write_loop_has_run = false) :
    (∀ (before : List Invocation) (period : Int), (∀ i ∈ before, i.is_write = false) →
      (litexcnc_write C ops (state_after C ops l before) period).2.countP
          Call.is_write_config = 1 ∧
      (litexcnc_write C ops (state_after C ops l before) period).2.countP
          Call.is_fpga_write = 0) ∧
    (∀ (before : List Invocation) (period : Int), (∃ i ∈ before, i.is_write = true) →
      (litexcnc_write C ops (state_after C ops l before) period).2.countP
          Call.is_fpga_write = 1 ∧
      (litexcnc_write C ops (state_after C ops l before) period).2.countP
          Call.is_write_config = 0) ∧
    (∀ invs : List Invocation,
      (trace C ops l invs).countP Call.is_write_config =
        if invs.any Invocation.is_write then 1 else 0) ∧
    (∀ (invs : List Invocation) (pre post : List Call),
      trace C ops l invs = pre ++ Call.fpga_write :: post →
        ∃ c ∈ pre, c.is_write_config = true) := by
  refine ⟨?_, ?_, ?_, ?_⟩
  · intro before period hb
    have h := state_after_reads C ops before l hb
    exact (first_write C ops _ period (h.trans hw)).2
  · intro before period hb
    have h := state_after_some_write C ops before l hb
    exact (later_write C ops _ period h).2
  · intro invs
    exact trace_count C ops invs l hw
  · intro invs pre post h
    exact write_config_before_write C ops invs l hw pre post h

/-- C2, as the claim states it, fails: after one `litexcnc_read` the board is
still unconfigured, and the next `litexcnc_read` calls the transport's `read`
and a module's `process_read`; after a `litexcnc_write` without an earlier
read the board is configured, and `litexcnc_read` makes no call at all. -/
theorem read_ignores_write_flag :
    ((state_after sample_consts sample_ops sample_board [.read 1000000]).write_loop_has_run
        = false ∧
      Call.fpga_read ∈ (litexcnc_read sample_ops
        (state_after sample_consts sample_ops sample_board [.read 1000000]) 1000000).2 ∧
      Call.process_read .watchdog 0 ∈ (litexcnc_read sample_ops
        (state_after sample_consts sample_ops sample_board [.read 1000000]) 1000000).2) ∧
    ((state_after sample_consts sample_ops sample_board [.write 1000000]).write_loop_has_run
        = true ∧
      (litexcnc_read sample_ops
        (state_after sample_consts sample_ops sample_board [.write 1000000]) 1000000).2 = []) := by
  decide

/-- C2, amended: `litexcnc_read` is gated on `read_loop_has_run`, whatever
`write_loop_has_run` is. With `read_loop_has_run` false it sets the flag and
makes no call; with `read_loop_has_run` true it leaves the board state as it
is, clears the read buffer, calls the transport's `read` and then
`process_read` of the six modules on one cursor. -/
theorem read_gated_on_read_flag (ops : ModuleOps) (l : litexcnc_t) (period : Int) :
    (l.read_loop_has_run = false →
      litexcnc_read ops l period = ({ l with read_loop_has_run := true }, [])) ∧
    (l.read_loop_has_run = true →
      (litexcnc_read ops l period).1 = l ∧
      (litexcnc_read ops l period).2.take 2 = [.memset_read l.read_buffer_size, .fpga_read] ∧
      ((litexcnc_read ops l period).2.drop 2).filterMap Call.read_module = declared_order ∧
      ((litexcnc_read ops l period).2.drop 2).length = 6) := by
  constructor
  · intro h
    simp [litexcnc_read, h]
  · intro h
    simp [litexcnc_read, h, Call.read_module, declared_order]

/-- Witness for `read_gated_on_read_flag`: the first and the second read of the sample board. -/
theorem read_gated_on_read_flag_witness :
    litexcnc_read sample_ops sample_board 1000000 =
      ({ sample_board with read_loop_has_run := true }, []) ∧
    (litexcnc_read sample_ops { sample_board with read_loop_has_run := true } 1000000).2.take 2 =
      [.memset_read 36, .fpga_read] :=
  ⟨(read_gated_on_read_flag sample_ops sample_board 1000000).1 rfl,
   ((read_gated_on_read_flag sample_ops { sample_board with read_loop_has_run := true }
      1000000).2 rfl).2.1⟩

/-- C9: in steady state `litexcnc_read` clears the whole read buffer, calls
the transport's `read` and then `process_read` of watchdog, wallclock, gpio,
pwm, stepgen, encoder, each once; `litexcnc_write` clears the whole write
buffer, calls `prepare_write` of the same modules in the same order, each
once, and then the transport's `write`. With every module advancing the
cursor by its declared size, every call is entered with the cursor at the sum
of the declared sizes of the modules before it. -/
theorem steady_state_cycle (C : Consts) (ops : ModuleOps) (l : litexcnc_t) (period : Int)
    (rs ws : ModuleKind → Nat)
    (hr : l.read_loop_has_run = true) (hw : l.write_loop_has_run = true)
    (hrs : ∀ m p c, ops.process_read m p c = c + rs m)
    (hws : ∀ m p c, ops.prepare_write m p c = c + ws m) :
    litexcnc_read ops l period =
      (l, .memset_read l.read_buffer_size :: .fpga_read ::
        declared_order.map (fun m => .process_read m (segment_start rs m))) ∧
    litexcnc_write C ops l period =
      (l, .memset_write l.write_buffer_size ::
        declared_order.map (fun m => .prepare_write m (segment_start ws m)) ++
          [.fpga_write]) := by
  constructor
  · simp [litexcnc_read, hr, hrs, declared_order, segment_start, List.takeWhile, Nat.add_assoc]
  · simp [litexcnc_write, hw, hws, declared_order, segment_start, List.takeWhile, Nat.add_assoc]

/-- Witness for `steady_state_cycle`: the sample board with both flags set. -/
theorem steady_state_cycle_witness :
    litexcnc_read sample_ops
        { sample_board with read_loop_has_run := true, write_loop_has_run := true } 1000000 =
      ({ sample_board with read_loop_has_run := true, write_loop_has_run := true },
        [.memset_read 36, .fpga_read, .process_read .watchdog 0, .process_read .wallclock 4,
         .process_read .gpio 12, .process_read .pwm 16, .process_read .stepgen 16,
         .process_read .encoder 28]) ∧
    litexcnc_write sample_consts sample_ops
        { sample_board with read_loop_has_run := true, write_loop_has_run := true } 1000000 =
      ({ sample_board with read_loop_has_run := true, write_loop_has_run := true },
        [.memset_write 40, .prepare_write .watchdog 0, .prepare_write .wallclock 4,
         .prepare_write .gpio 4, .prepare_write .pwm 8, .prepare_write .stepgen 20,
         .prepare_write .encoder 36, .fpga_write]) :=
  steady_state_cycle sample_consts sample_ops
    { sample_board with read_loop_has_run := true, write_loop_has_run := true } 1000000
    sample_read_size sample_write_size rfl rfl (fun _ _ _ => rfl) (fun _ _ _ => rfl)

/-! ## The binary64 rounding -/

theorem excess_bits_small (fuel n : Nat) (h : n < 2 ^ 53) : excess_bits fuel n = 0 := by
  cases fuel with
  | zero => rfl
  | succ f =>
    unfold excess_bits
    rw [if_pos h]

theorem excess_bits_le (fuel : Nat) : ∀ n j : Nat, n < 2 ^ (53 + j) → excess_bits fuel n ≤ j := by
  induction fuel with
  | zero => intro n j _; simp [excess_bits]
  | succ f ih =>
    intro n j h
    unfold excess_bits
    split
    · omega
    · rename_i hn
      cases j with
      | zero => exact absurd h hn
      | succ j' =>
        have h2 : n / 2 < 2 ^ (53 + j') := by
          rw [Nat.div_lt_iff_lt_mul (by norm_num)]
          rw [show 53 + (j' + 1) = 53 + j' + 1 from rfl, pow_succ] at h
          exact h
        have := ih _ _ h2
        omega

theorem round53_small (n : Nat) (h : n < 2 ^ 53) : round53 n = n := by
  simp [round53, excess_bits_small n n h, Nat.mod_one]

theorem round53_ge (n : Nat) :
    n / 2 ^ excess_bits n n * 2 ^ excess_bits n n ≤ round53 n := by
  unfold round53
  simp only
  split
  · exact Nat.mul_le_mul_right _ (Nat.le_succ _)
  · exact le_rfl

theorem round53_le (n : Nat) : 2 * round53 n ≤ 2 * n + 2 ^ excess_bits n n := by
  unfold round53
  simp only
  have hdm := Nat.div_add_mod n (2 ^ excess_bits n n)
  have hc : 2 ^ excess_bits n n * (n / 2 ^ excess_bits n n) =
      n / 2 ^ excess_bits n n * 2 ^ excess_bits n n := Nat.mul_comm _ _
  split
  · rename_i hcond
    rw [Nat.add_mul, Nat.one_mul]
    rcases hcond with h | ⟨h, _⟩ <;> omega
  · omega

/-- Below `2^23` cycles the two rounded products and the truncation give the
integer quotient. -/
theorem loop_cycles_exact (f p : Nat) (h : f * p < 2 ^ 23 * 10 ^ 9) :
    loop_cycles f (p : Int) = ((f * p / 10 ^ 9 : Nat) : Int) := by
  have hx : round53 (round53 f * round53 p) = f * p := by
    rcases Nat.eq_zero_or_pos f with rfl | hf
    · simp [round53_small]
    rcases Nat.eq_zero_or_pos p with rfl | hp
    · simp [round53_small]
    have hfp : f * p < 2 ^ 53 := by norm_num at h ⊢; omega
    have h1 : f < 2 ^ 53 := lt_of_le_of_lt (Nat.le_mul_of_pos_right f hp) hfp
    have h2 : p < 2 ^ 53 := lt_of_le_of_lt (Nat.le_mul_of_pos_left p hf) hfp
    rw [round53_small f h1, round53_small p h2, round53_small _ hfp]
  unfold loop_cycles
  simp only [Int.natAbs_ofNat, hx]
  have hneg : ¬ ((p : Int) < 0) := by omega
  rw [if_neg hneg]
  congr 1
  -- the rounded product with the constant
  set N := f * p with hN
  set z := N * DOUBLE_1E_9_MANTISSA with hz
  set k := excess_bits z z with hk
  have hzlt : z < 2 ^ (53 + 52) := by
    simp only [hz, DOUBLE_1E_9_MANTISSA]
    norm_num at h ⊢
    omega
  have hk52 : k ≤ 52 := excess_bits_le z z 52 hzlt
  have hlo := round53_ge z
  have hhi := round53_le z
  rw [← hk] at hlo hhi
  have hpow : 2 ^ k ≤ 2 ^ 52 := Nat.pow_le_pow_right (by norm_num) hk52
  -- lower bound: the quotient times 2^82 is a multiple of 2^k below z
  have hlow : N / 10 ^ 9 * 2 ^ 82 ≤ z / 2 ^ k * 2 ^ k := by
    have hsplit : (2 : Nat) ^ 82 = 2 ^ (82 - k) * 2 ^ k := by
      rw [← pow_add]; congr 1; omega
    have hle : N / 10 ^ 9 * 2 ^ (82 - k) * 2 ^ k ≤ z := by
      rw [Nat.mul_assoc, ← hsplit]
      simp only [hz, DOUBLE_1E_9_MANTISSA]
      norm_num
      omega
    have := (Nat.le_div_iff_mul_le (Nat.pos_pow_of_pos k (by norm_num))).mpr hle
    calc N / 10 ^ 9 * 2 ^ 82 = N / 10 ^ 9 * 2 ^ (82 - k) * 2 ^ k := by
          rw [Nat.mul_assoc, ← hsplit]
      _ ≤ z / 2 ^ k * 2 ^ k := Nat.mul_le_mul_right _ this
  have hY1 : N / 10 ^ 9 * 2 ^ 82 ≤ round53 z := le_trans hlow hlo
  have hY2 : round53 z < (N / 10 ^ 9 + 1) * 2 ^ 82 := by
    simp only [hz, DOUBLE_1E_9_MANTISSA] at hhi ⊢
    norm_num at hhi hpow h ⊢
    omega
  exact Nat.div_eq_of_lt_le hY1 hY2

/-! ## The config buffer -/

theorem htobe32_length (v : Int) : (htobe32 v).length = 4 := rfl

theorem htobe32_natCast (v : Nat) (h : v < 2 ^ 32) :
    htobe32 (v : Int) = [v / 2 ^ 24 % 256, v / 2 ^ 16 % 256, v / 2 ^ 8 % 256, v % 256] := by
  have : ((v : Int) % 2 ^ 32).toNat = v := by
    have h1 : ((v : Int) % 2 ^ 32) = (v : Int) := by
      norm_num at h ⊢
      omega
    rw [h1]
    exact Int.toNat_ofNat v
  simp only [htobe32, this]

theorem config_header_eq (C : Consts) (l : litexcnc_t) (period : Int) :
    litexcnc_config_header C l period =
      (htobe32 (loop_cycles l.clock_frequency period) ++
        (List.replicate C.LITEXCNC_CONFIG_HEADER_SIZE 0).drop 4, 4) := by
  simp [litexcnc_config_header, memcpy, sizeof_litexcnc_config_header_t, htobe32_length]

theorem memcpy_behind_header (hdr tail seg : List Nat) (h : hdr.length = 4) :
    memcpy (hdr ++ tail) 4 seg = hdr ++ (seg ++ tail.drop seg.length) := by
  simp [memcpy, ← h, List.take_append_eq_append_take, List.drop_append_eq_append_drop,
    List.drop_eq_nil_of_le]

/-- C7, as the claim states it, fails: with a clock of 18,645,507 Hz and a
period of 5,363,222,357 ns the product is 10^17 - 1, whose quotient by 10^9
is 99,999,999 and fits 32 bits, but the binary64 products round up and the
header holds 100,000,000. -/
theorem loop_cycles_rounds_up :
    18645507 * 5363222357 / 10 ^ 9 = 99999999 ∧
    ((litexcnc_config_header sample_consts
        { sample_board with clock_frequency := 18645507 } 5363222357).1.take 4
      = [0x05, 0xF5, 0xE1, 0x00]) ∧
    [99999999 / 2 ^ 24 % 256, 99999999 / 2 ^ 16 % 256, 99999999 / 2 ^ 8 % 256, 99999999 % 256]
      = [0x05, 0xF5, 0xE0, 0xFF] ∧
    ¬ ((litexcnc_config_header sample_consts
        { sample_board with clock_frequency := 18645507 } 5363222357).1.take 4
      = [99999999 / 2 ^ 24 % 256, 99999999 / 2 ^ 16 % 256, 99999999 / 2 ^ 8 % 256,
          99999999 % 256]) := by
  decide

/-- C7, amended: for every clock frequency `f` and every period `p >= 0` with
`f * p < 2^23 * 10^9` (fewer than 8,388,608 cycles per period),
`litexcnc_config` stores in the first four bytes of the config buffer, and
hands to `write_config` there, the value `f * p / 10^9` rounded toward zero
as a 32-bit big-endian integer; for `f = 100,000,000` and `p = 1,000,000`
these are the bytes 00 01 86 A0. -/
theorem config_header_loop_cycles (C : Consts) (l : litexcnc_t) (p : Nat)
    (hsize : 4 ≤ C.LITEXCNC_CONFIG_HEADER_SIZE)
    (hrange : l.clock_frequency * p < 2 ^ 23 * 10 ^ 9) :
    (litexcnc_config_header C l (p : Int)).1.take 4 =
      [l.clock_frequency * p / 10 ^ 9 / 2 ^ 24 % 256, l.clock_frequency * p / 10 ^ 9 / 2 ^ 16 % 256,
       l.clock_frequency * p / 10 ^ 9 / 2 ^ 8 % 256, l.clock_frequency * p / 10 ^ 9 % 256] ∧
    (∀ (ops : ModuleOps) (seg : List Nat),
      (∀ buf c, ops.config .stepgen (p : Int) (buf, c) = (memcpy buf c seg, c + seg.length)) →
      ∃ rest, litexcnc_config C ops l (p : Int) =
        [.module_config .stepgen 4,
         .write_config
          ([l.clock_frequency * p / 10 ^ 9 / 2 ^ 24 % 256,
            l.clock_frequency * p / 10 ^ 9 / 2 ^ 16 % 256,
            l.clock_frequency * p / 10 ^ 9 / 2 ^ 8 % 256,
            l.clock_frequency * p / 10 ^ 9 % 256] ++ rest)
          C.LITEXCNC_CONFIG_HEADER_SIZE]) ∧
    (l.clock_frequency = 100000000 → p = 1000000 →
      (litexcnc_config_header C l (p : Int)).1.take 4 = [0x00, 0x01, 0x86, 0xA0]) := by
  have _ := hsize
  have hv : l.clock_frequency * p / 10 ^ 9 < 2 ^ 32 := by
    norm_num at hrange ⊢
    omega
  have hbytes := htobe32_natCast _ hv
  have hlc := loop_cycles_exact l.clock_frequency p hrange
  have hhead : (litexcnc_config_header C l (p : Int)).1.take 4 =
      htobe32 (loop_cycles l.clock_frequency (p : Int)) := by
    rw [config_header_eq]
    simp [List.take_append_eq_append_take, htobe32_length]
  refine ⟨?_, ?_, ?_⟩
  · rw [hhead, hlc, hbytes]
  · intro ops seg hseg
    refine ⟨seg ++ ((List.replicate C.LITEXCNC_CONFIG_HEADER_SIZE 0).drop 4).drop seg.length, ?_⟩
    simp only [litexcnc_config, hseg, config_header_eq]
    rw [memcpy_behind_header _ _ _ (htobe32_length _), hlc, hbytes]
  · intro hf hp
    rw [hhead, hlc, hbytes, hf, hp]
    decide

/-- Witness for `config_header_loop_cycles`: the sample board, 100 MHz, at a period of 1 ms. -/
theorem config_header_loop_cycles_witness :
    (litexcnc_config_header sample_consts sample_board ((1000000 : Nat) : Int)).1.take 4 =
      [0x00, 0x01, 0x86, 0xA0] :=
  (config_header_loop_cycles sample_consts sample_board 1000000 (by decide) (by decide)).2.2
    rfl rfl

/-- C8, as the claim states it, fails: on the sample board, whose six modules
all have a config segment, `litexcnc_config` calls the config function of
stepgen only, the buffer holds the header and the stepgen segment only, and
the length handed to `write_config` is `LITEXCNC_CONFIG_HEADER_SIZE`, not the
header size plus the sizes of the six segments. -/
theorem config_calls_stepgen_only :
    litexcnc_config sample_consts sample_ops sample_board 1000000 =
      [.module_config .stepgen 4,
       .write_config [0x00, 0x01, 0x86, 0xA0, 5, 5, 5, 5, 5, 5, 5, 5, 0, 0, 0, 0] 16] ∧
    (litexcnc_config sample_consts sample_ops sample_board 1000000).filterMap Call.config_module
      ≠ declared_order ∧
    sizeof_litexcnc_config_header_t +
      (declared_order.map (fun m => (sample_config_data m).length)).sum = 21 := by
  decide

/-- C8, amended: `litexcnc_config` calls one module config function,
`litexcnc_stepgen_config`, once, with the cursor right behind the header, and
then `write_config` once with the length `LITEXCNC_CONFIG_HEADER_SIZE`; when
stepgen writes a segment that fits the buffer at the cursor, the buffer handed
over is the `loop_cycles` header, the stepgen segment and zero bytes up to
`LITEXCNC_CONFIG_HEADER_SIZE`. -/
theorem config_buffer_layout (C : Consts) (ops : ModuleOps) (l : litexcnc_t) (period : Int) :
    (litexcnc_config C ops l period).filterMap Call.config_module = [.stepgen] ∧
    (∃ buf, litexcnc_config C ops l period =
      [.module_config .stepgen sizeof_litexcnc_config_header_t,
       .write_config buf C.LITEXCNC_CONFIG_HEADER_SIZE]) ∧
    (∀ seg : List Nat,
      (∀ buf c, ops.config .stepgen period (buf, c) = (memcpy buf c seg, c + seg.length)) →
      sizeof_litexcnc_config_header_t + seg.length ≤ C.LITEXCNC_CONFIG_HEADER_SIZE →
      litexcnc_config C ops l period =
        [.module_config .stepgen sizeof_litexcnc_config_header_t,
         .write_config
          (htobe32 (loop_cycles l.clock_frequency period) ++ seg ++
            List.replicate
              (C.LITEXCNC_CONFIG_HEADER_SIZE - sizeof_litexcnc_config_header_t - seg.length) 0)
          C.LITEXCNC_CONFIG_HEADER_SIZE]) := by
  refine ⟨?_, ?_, ?_⟩
  · simp [litexcnc_config, Call.config_module]
  · exact ⟨_, rfl⟩
  · intro seg hseg hfit
    simp only [litexcnc_config, hseg, config_header_eq]
    rw [memcpy_behind_header _ _ _ (htobe32_length _)]
    simp [sizeof_litexcnc_config_header_t, List.drop_replicate, Nat.sub_sub]

/-- Witness for `config_buffer_layout`: the sample stepgen segment of eight bytes. -/
theorem config_buffer_layout_witness :
    litexcnc_config sample_consts sample_ops sample_board 1000000 =
      [.module_config .stepgen sizeof_litexcnc_config_header_t,
       .write_config
        (htobe32 (loop_cycles sample_board.clock_frequency 1000000) ++ [5, 5, 5, 5, 5, 5, 5, 5] ++
          List.replicate
            (sample_consts.LITEXCNC_CONFIG_HEADER_SIZE - sizeof_litexcnc_config_header_t - 8) 0)
        sample_consts.LITEXCNC_CONFIG_HEADER_SIZE] :=
  (config_buffer_layout sample_consts sample_ops sample_board 1000000).2.2
    [5, 5, 5, 5, 5, 5, 5, 5] (fun _ _ => rfl) (by decide)

/-! ## Registration: how a run ends -/

theorem erase_added (R : List Nat) (a : Nat) (h : a ∉ R) :
    rtapi_list_del a (rtapi_list_add_tail a R) = R := by
  simp [rtapi_list_del, rtapi_list_add_tail, List.erase_append_right _ h]

theorem fail0_ends (env : RegisterEnv) (L : List Nat) (a : Nat) (ok : Prop)
    (calls calls' : List RegCall) (r : Int) (hnot : ¬ ok) (hsub : ∀ x ∈ calls, x ∈ calls') :
    ends_as env L a ok calls (fail0 calls' L a r) := by
  refine ⟨fun x hx => ?_, Or.inr (Or.inl ⟨hnot, ⟨r, rfl⟩, rfl, rfl⟩)⟩
  exact List.mem_append_left _ (hsub x hx)

theorem fail1_ends (env : RegisterEnv) (L : List Nat) (a : Nat) (ok : Prop)
    (calls calls' : List RegCall) (r : Int) (hnot : ¬ ok) (hsub : ∀ x ∈ calls, x ∈ calls') :
    ends_as env L a ok calls (fail1 calls' L a r) :=
  fail0_ends env L a ok calls _ r hnot (fun x hx => List.mem_append_left _ (hsub x hx))

theorem ends_as_mono (env : RegisterEnv) (L : List Nat) (a : Nat) (ok ok' : Prop)
    (calls calls' : List RegCall) (out : RegisterResult) (hiff : ok ↔ ok')
    (hsub : ∀ x ∈ calls, x ∈ calls') (h : ends_as env L a ok' calls' out) :
    ends_as env L a ok calls out := by
  obtain ⟨hp, h | h | h⟩ := h
  · exact ⟨fun x hx => hp x (hsub x hx), Or.inl ⟨hiff.mpr h.1, h.2⟩⟩
  · exact ⟨fun x hx => hp x (hsub x hx), Or.inr (Or.inl ⟨fun hh => h.1 (hiff.mp hh), h.2⟩)⟩
  · exact ⟨fun x hx => hp x (hsub x hx), Or.inr (Or.inr ⟨fun hh => h.1 (hiff.mp hh), h.2⟩)⟩

theorem register_finish_ends (env : RegisterEnv) (L : List Nat) (a cf : Nat)
    (calls : List RegCall) :
    ends_as env L a (finish_succeeds env) calls (register_finish env L a cf calls) := by
  unfold register_finish
  by_cases h1 : env.post_register = 0
  · by_cases h2 : env.reset = 0
    · rw [if_neg (not_not.mpr h1), if_neg (not_not.mpr h2)]
      refine ⟨fun x hx => ?_, Or.inl ⟨⟨h1, h2⟩, rfl, rfl, by simp⟩⟩
      simp [hx]
    · rw [if_neg (not_not.mpr h1), if_pos h2]
      exact fail1_ends env L a _ calls _ _ (fun h => h2 h.2) (fun x hx => by simp [hx])
  · rw [if_pos h1]
    exact fail1_ends env L a _ calls _ _ (fun h => h1 h.1) (fun x hx => by simp [hx])

theorem register_export_ends (env : RegisterEnv) (L : List Nat) (a cf : Nat)
    (calls : List RegCall) :
    ends_as env L a (export_succeeds env) calls (register_export env L a cf calls) := by
  unfold register_export
  by_cases h1 : env.export_read = 0
  · by_cases h2 : env.export_write = 0
    · rw [if_neg (not_not.mpr h1), if_neg (not_not.mpr h2)]
      exact ends_as_mono env L a _ _ calls _ _ ⟨fun h => h.2.2, fun h => ⟨h1, h2, h⟩⟩
        (fun x hx => by simp [hx]) (register_finish_ends env L a cf _)
    · rw [if_neg (not_not.mpr h1), if_pos h2]
      exact fail1_ends env L a _ calls _ _ (fun h => h2 h.2.1) (fun x hx => by simp [hx])
  · rw [if_pos h1]
    exact fail1_ends env L a _ calls _ _ (fun h => h1 h.1) (fun x hx => by simp [hx])

theorem register_buffers_ends (env : RegisterEnv) (L : List Nat) (a cf : Nat)
    (calls : List RegCall) :
    ends_as env L a (buffers_succeed env) calls (register_buffers env L a cf calls) := by
  unfold register_buffers
  by_cases h0 : env.board = none
  · rw [if_pos h0]
    exact fail1_ends env L a _ calls _ _ (fun h => h.1 h0) (fun x hx => by simp [hx])
  · by_cases h1 : env.write_buffer = none
    · rw [if_neg h0, if_pos h1]
      exact ⟨fun x hx => by simp [hx], Or.inr (Or.inr ⟨fun h => h.2.1 h1, rfl, Or.inl h1⟩)⟩
    · by_cases h2 : env.read_buffer = none
      · rw [if_neg h0, if_neg h1, if_neg h0, if_pos h2]
        exact ⟨fun x hx => by simp [hx],
          Or.inr (Or.inr ⟨fun h => h.2.2.1 h2, rfl, Or.inr h2⟩)⟩
      · rw [if_neg h0, if_neg h1, if_neg h0, if_neg h2]
        exact ends_as_mono env L a _ _ calls _ _ ⟨fun h => h.2.2.2, fun h => ⟨h0, h1, h2, h⟩⟩
          (fun x hx => by simp [hx]) (register_export_ends env L a cf _)

theorem register_modules_ends (env : RegisterEnv) (L : List Nat) (a cf : Nat)
    (calls : List RegCall) (r : Int) :
    ends_as env L a (modules_succeed env) calls (register_modules env L a cf calls r) := by
  unfold register_modules
  by_cases h1 : env.module_init .watchdog < 0
  · rw [if_pos h1]
    exact fail0_ends env L a _ calls _ _ (fun h => absurd (h.1 .watchdog) (by omega))
      (fun x hx => by simp [hx])
  by_cases h2 : env.module_init .wallclock < 0
  · rw [if_neg h1, if_pos h2]
    exact fail0_ends env L a _ calls _ _ (fun h => absurd (h.1 .wallclock) (by omega))
      (fun x hx => by simp [hx])
  by_cases h3 : env.module_init .gpio < 0
  · rw [if_neg h1, if_neg h2, if_pos h3]
    exact fail0_ends env L a _ calls _ _ (fun h => absurd (h.1 .gpio) (by omega))
      (fun x hx => by simp [hx])
  by_cases h4 : env.module_init .pwm < 0
  · rw [if_neg h1, if_neg h2, if_neg h3, if_pos h4]
    exact fail0_ends env L a _ calls _ _ (fun h => absurd (h.1 .pwm) (by omega))
      (fun x hx => by simp [hx])
  by_cases h5 : env.module_init .stepgen < 0
  · rw [if_neg h1, if_neg h2, if_neg h3, if_neg h4, if_pos h5]
    exact fail0_ends env L a _ calls _ _ (fun h => absurd (h.1 .stepgen) (by omega))
      (fun x hx => by simp [hx])
  by_cases h6 : env.module_init .encoder < 0
  · rw [if_neg h1, if_neg h2, if_neg h3, if_neg h4, if_neg h5, if_pos h6]
    exact fail0_ends env L a _ calls _ _ (fun h => absurd (h.1 .encoder) (by omega))
      (fun x hx => by simp [hx])
  rw [if_neg h1, if_neg h2, if_neg h3, if_neg h4, if_neg h5, if_neg h6]
  have hall : ∀ m, 0 ≤ env.module_init m := by
    intro m
    cases m <;> omega
  exact ends_as_mono env L a _ _ calls _ _ ⟨fun h => h.2, fun h => ⟨hall, h⟩⟩
    (fun x hx => by simp [hx]) (register_buffers_ends env L a cf _)

theorem compat_gate_eq_zero (C : Consts) (verify_config : Int) (version crc fp : Nat) :
    compat_gate C verify_config version crc fp = 0 ↔
      verify_config = 0 ∧ (version >>> 16) &&& 0xff = C.LITEXCNC_VERSION_MAJOR ∧
      (version >>> 8) &&& 0xff = C.LITEXCNC_VERSION_MINOR ∧ crc = fp := by
  unfold compat_gate
  by_cases h0 : verify_config = 0
  · by_cases h1 : (version >>> 16) &&& 0xff = C.LITEXCNC_VERSION_MAJOR <;>
    by_cases h2 : (version >>> 8) &&& 0xff = C.LITEXCNC_VERSION_MINOR <;>
    by_cases h3 : crc = fp <;> simp [h0, h1, h2, h3]
  · simp [h0]

/-! ## Registration -/

/-- C3: the code returns 0 from three failure paths. With the `clock_frequency`
key missing, with a configuration document that cannot be loaded, and with a
failing module init, `litexcnc_register` takes the instance out of the registry
again and returns 0, the value `r` has had since the compatibility gate. -/
theorem register_failure_returns_zero :
    (litexcnc_register sample_consts
        { sample_env with config := some { board_name := none, clock_frequency := none } }
        sample_registry).result = some 0 ∧
    (litexcnc_register sample_consts
        { sample_env with config := some { board_name := none, clock_frequency := none } }
        sample_registry).litexcnc_list = sample_registry ∧
    (litexcnc_register sample_consts { sample_env with config := none }
        sample_registry).result = some 0 ∧
    (litexcnc_register sample_consts
        { sample_env with module_init := fun m => if m = .gpio then -1 else 0 }
        sample_registry).result = some 0 ∧
    (litexcnc_register sample_consts sample_env sample_registry).result = some 0 ∧
    (litexcnc_register sample_consts sample_env sample_registry).litexcnc_list =
      sample_registry ++ [4096] := by
  decide

/-- C10: the code does not detect a failed buffer allocation. With the write
buffer (or the read buffer) allocation returning `NULL`, `litexcnc_register`
hands `NULL` to `memset` with the instance still in the registry and does not
return `-ENOMEM`; only the allocation of the board instance is checked. -/
theorem register_null_buffer_reaches_memset :
    (litexcnc_register sample_consts { sample_env with write_buffer := none }
        sample_registry).result = none ∧
    RegCall.memset_buffer none 40 ∈
      (litexcnc_register sample_consts { sample_env with write_buffer := none }
        sample_registry).calls ∧
    (litexcnc_register sample_consts { sample_env with write_buffer := none }
        sample_registry).litexcnc_list = sample_registry ++ [4096] ∧
    (litexcnc_register sample_consts { sample_env with read_buffer := none }
        sample_registry).result = none ∧
    RegCall.memset_buffer none 36 ∈
      (litexcnc_register sample_consts { sample_env with read_buffer := none }
        sample_registry).calls ∧
    (litexcnc_register sample_consts { sample_env with board := none }
        sample_registry).result = some (-ENOMEM) ∧
    (litexcnc_register sample_consts { sample_env with board := none }
        sample_registry).litexcnc_list = sample_registry := by
  decide

theorem register_loads_config (C : Consts) (env : RegisterEnv) (R : List Nat) (a : Nat)
    (hb : env.board = some a)
    (hg : compat_gate C env.verify_config env.version env.config_fingerprint env.fingerprint = 0) :
    RegCall.json_object_from_file ∈ (litexcnc_register C env R).calls := by
  unfold litexcnc_register
  simp only [hb]
  rw [if_neg (not_not.mpr hg)]
  have hin : RegCall.json_object_from_file ∈
      [RegCall.kmalloc_board, .list_add_tail a, .crc32, .verify_config] ++
        [RegCall.json_object_from_file] := by simp
  cases env.config with
  | none => exact List.mem_append_left _ hin
  | some config =>
    simp only
    cases board_name_check C (board_name_of env config) with
    | some e => exact List.mem_append_left _ (List.mem_append_left _ hin)
    | none =>
      simp only
      cases config.clock_frequency with
      | none => exact List.mem_append_left _ (List.mem_append_left _ hin)
      | some cf => exact (register_modules_ends env _ a cf _ _).1 _ hin

theorem register_stops_at_gate (C : Consts) (env : RegisterEnv) (R : List Nat) (a : Nat)
    (hb : env.board = some a)
    (hg : compat_gate C env.verify_config env.version env.config_fingerprint env.fingerprint ≠ 0) :
    litexcnc_register C env R =
      fail0 [.kmalloc_board, .list_add_tail a, .crc32, .verify_config]
        (rtapi_list_add_tail a R) a
        (compat_gate C env.verify_config env.version env.config_fingerprint env.fingerprint) := by
  unfold litexcnc_register
  simp only [hb]
  rw [if_pos hg]

/-- C4: the value the compatibility gate leaves in `r` is 0 exactly when
`verify_config` returned 0, the major and minor bytes of the board's version
equal the compiled-in ones and the two fingerprints are equal; it does not
depend on the patch byte, and a run that prints the patch message passes when
the fingerprints are equal; a fingerprint mismatch makes it non-zero whatever
the versions are; and `litexcnc_register` goes on to load the configuration
exactly when it is 0, returning it, non-zero, otherwise. -/
theorem compat_gate_policy (C : Consts) (env : RegisterEnv) :
    (compat_gate C env.verify_config env.version env.config_fingerprint env.fingerprint = 0 ↔
      env.verify_config = 0 ∧
      (env.version >>> 16) &&& 0xff = C.LITEXCNC_VERSION_MAJOR ∧
      (env.version >>> 8) &&& 0xff = C.LITEXCNC_VERSION_MINOR ∧
      env.config_fingerprint = env.fingerprint) ∧
    (∀ version' : Nat,
      (version' >>> 16) &&& 0xff = (env.version >>> 16) &&& 0xff →
      (version' >>> 8) &&& 0xff = (env.version >>> 8) &&& 0xff →
      compat_gate C env.verify_config version' env.config_fingerprint env.fingerprint =
        compat_gate C env.verify_config env.version env.config_fingerprint env.fingerprint) ∧
    (env.config_fingerprint ≠ env.fingerprint →
      compat_gate C env.verify_config env.version env.config_fingerprint env.fingerprint ≠ 0) ∧
    (patch_message C env.verify_config env.version = true →
      env.config_fingerprint = env.fingerprint →
      compat_gate C env.verify_config env.version env.config_fingerprint env.fingerprint = 0) ∧
    (∀ (R : List Nat) (a : Nat), env.board = some a →
      (RegCall.json_object_from_file ∈ (litexcnc_register C env R).calls ↔
        compat_gate C env.verify_config env.version env.config_fingerprint env.fingerprint = 0) ∧
      (compat_gate C env.verify_config env.version env.config_fingerprint env.fingerprint ≠ 0 →
        (litexcnc_register C env R).result =
          some (compat_gate C env.verify_config env.version env.config_fingerprint
            env.fingerprint))) := by
  refine ⟨compat_gate_eq_zero C _ _ _ _, ?_, ?_, ?_, ?_⟩
  · intro version' h1 h2
    simp only [compat_gate, h1, h2]
  · intro h hz
    exact h ((compat_gate_eq_zero C _ _ _ _).mp hz).2.2.2
  · intro hp hf
    rw [compat_gate_eq_zero]
    simp only [patch_message, Bool.and_eq_true, decide_eq_true_eq, Bool.not_eq_true',
      decide_eq_false_iff_not, not_or, not_not] at hp
    exact ⟨hp.1.1, hp.1.2.1, hp.1.2.2, hf⟩
  · intro R a hb
    refine ⟨⟨fun hm => ?_, register_loads_config C env R a hb⟩, fun hg => ?_⟩
    · by_contra hg
      rw [register_stops_at_gate C env R a hb hg] at hm
      simp [fail0] at hm
    · rw [register_stops_at_gate C env R a hb hg]
      rfl

/-- Witness for `compat_gate_policy`: firmware 1.0.7 against the driver 1.0.2
passes the gate and the configuration is loaded. -/
theorem compat_gate_policy_witness :
    compat_gate sample_consts 0 0x010007 0xCAFEF00D 0xCAFEF00D = 0 ∧
    RegCall.json_object_from_file ∈
      (litexcnc_register sample_consts { sample_env with version := 0x010007 }
        sample_registry).calls :=
  ⟨((compat_gate_policy sample_consts { sample_env with version := 0x010007 }).1).mpr
      (by decide),
   (((compat_gate_policy sample_consts { sample_env with version := 0x010007 }).2.2.2.2
      sample_registry 4096 rfl).1).mpr (by decide)⟩

/-! ## The board name -/

theorem name_scan_some (name : List Nat) :
    ∀ remaining i j, name_scan name remaining i = some j →
      i ≤ j ∧ j ≤ i + remaining ∧
      (∀ t, i ≤ t → t < j → name.getD t 0 ≠ 0 ∧ isprint (name.getD t 0) = true) ∧
      (j < i + remaining → name.getD j 0 = 0) := by
  intro remaining
  induction remaining with
  | zero =>
    intro i j h
    simp only [name_scan, Option.some.injEq] at h
    subst h
    exact ⟨le_rfl, le_rfl, fun t h1 h2 => absurd h1 (by omega), fun h => absurd h (by omega)⟩
  | succ n ih =>
    intro i j h
    unfold name_scan at h
    by_cases h0 : name.getD i 0 = 0
    · rw [if_pos h0, Option.some.injEq] at h
      subst h
      exact ⟨le_rfl, by omega, fun t h1 h2 => absurd h1 (by omega), fun _ => h0⟩
    · rw [if_neg h0] at h
      by_cases hp : isprint (name.getD i 0) = true
      · simp only [hp, Bool.not_true, Bool.false_eq_true, if_false] at h
        obtain ⟨h1, h2, h3, h4⟩ := ih (i + 1) j h
        refine ⟨by omega, by omega, fun t ht1 ht2 => ?_, fun hj => h4 (by omega)⟩
        rcases Nat.eq_or_lt_of_le ht1 with rfl | hlt
        · exact ⟨h0, hp⟩
        · exact h3 t hlt ht2
      · simp only [Bool.not_eq_true] at hp
        rw [hp] at h
        simp at h

theorem name_scan_none (name : List Nat) :
    ∀ remaining i, name_scan name remaining i = none →
      ∃ j, i ≤ j ∧ j < i + remaining ∧ (∀ t, i ≤ t → t < j → name.getD t 0 ≠ 0) ∧
        name.getD j 0 ≠ 0 ∧ isprint (name.getD j 0) = false := by
  intro remaining
  induction remaining with
  | zero => intro i h; simp [name_scan] at h
  | succ n ih =>
    intro i h
    unfold name_scan at h
    by_cases h0 : name.getD i 0 = 0
    · rw [if_pos h0] at h; cases h
    · rw [if_neg h0] at h
      by_cases hp : isprint (name.getD i 0) = true
      · simp only [hp, Bool.not_true, Bool.false_eq_true, if_false] at h
        obtain ⟨j, h1, h2, h3, h4⟩ := ih (i + 1) h
        refine ⟨j, by omega, by omega, fun t ht1 ht2 => ?_, h4⟩
        rcases Nat.eq_or_lt_of_le ht1 with rfl | hlt
        · exact h0
        · exact h3 t hlt ht2
      · simp only [Bool.not_eq_true] at hp
        exact ⟨i, le_rfl, by omega, fun t h1 h2 => absurd h1 (by omega), h0, hp⟩

theorem board_name_check_none_iff (C : Consts) (name : List Nat) :
    board_name_check C name = none ↔
      ∃ i, 0 < i ∧ i ≤ C.HAL_NAME_LEN ∧ name.getD i 0 = 0 ∧
        ∀ j, j < i → isprint (name.getD j 0) = true := by
  unfold board_name_check
  constructor
  · intro h
    cases hs : name_scan name (C.HAL_NAME_LEN + 1) 0 with
    | none => rw [hs] at h; simp at h
    | some i =>
      rw [hs] at h
      simp only at h
      obtain ⟨_, h2, h3, h4⟩ := name_scan_some name _ _ _ hs
      by_cases hi1 : i = C.HAL_NAME_LEN + 1
      · rw [if_pos hi1] at h; cases h
      · rw [if_neg hi1] at h
        by_cases hi0 : i = 0
        · rw [if_pos hi0] at h; cases h
        · exact ⟨i, by omega, by omega, h4 (by omega), fun j hj => (h3 j (by omega) hj).2⟩
  · rintro ⟨i, hi0, hiN, hz, hpr⟩
    cases hs : name_scan name (C.HAL_NAME_LEN + 1) 0 with
    | none =>
      exfalso
      obtain ⟨j, _, hj2, hj3, hj4, hj5⟩ := name_scan_none name _ _ hs
      rcases Nat.lt_trichotomy j i with hlt | heq | hgt
      · rw [hpr j hlt] at hj5; cases hj5
      · rw [heq] at hj4; exact hj4 hz
      · exact hj3 i (by omega) hgt hz
    | some j =>
      simp only
      obtain ⟨_, h2, h3, h4⟩ := name_scan_some name _ _ _ hs
      have hji : j = i := by
        rcases Nat.lt_trichotomy j i with hlt | heq | hgt
        · exfalso
          have hz' := h4 (by omega)
          have := hpr j hlt
          rw [hz'] at this
          exact absurd this (by decide)
        · exact heq
        · exact absurd hz (h3 i (by omega) hgt).1
      rw [if_neg (by omega), if_neg (by omega)]

theorem board_name_check_error (C : Consts) (name : List Nat)
    (h : board_name_check C name ≠ none) : board_name_check C name = some (-EINVAL) := by
  unfold board_name_check at h ⊢
  cases hs : name_scan name (C.HAL_NAME_LEN + 1) 0 with
  | none => rfl
  | some i =>
    rw [hs] at h
    simp only at h ⊢
    by_cases hi1 : i = C.HAL_NAME_LEN + 1
    · rw [if_pos hi1]
    · rw [if_neg hi1] at h ⊢
      by_cases hi0 : i = 0
      · rw [if_pos hi0]
      · rw [if_neg hi0] at h; exact absurd rfl h

theorem register_name_rejected (C : Consts) (env : RegisterEnv) (R : List Nat) (a : Nat)
    (config : Config) (e : Int)
    (hb : env.board = some a)
    (hg : compat_gate C env.verify_config env.version env.config_fingerprint env.fingerprint = 0)
    (hc : env.config = some config)
    (hn : board_name_check C (board_name_of env config) = some e) :
    litexcnc_register C env R =
      fail1 ([.kmalloc_board, .list_add_tail a, .crc32, .verify_config] ++
        [.json_object_from_file]) (rtapi_list_add_tail a R) a e := by
  unfold litexcnc_register
  simp only [hb]
  rw [if_neg (not_not.mpr hg)]
  simp only [hc, hn]

/-- C5: on a name buffer of `HAL_NAME_LEN + 1` bytes the name check of
`litexcnc_register` passes exactly when the buffer holds a zero byte at an
index `i` with `0 < i <= HAL_NAME_LEN` and every byte in front of it is
printable; in every other case it fails with `-EINVAL`, which
`litexcnc_register` then returns with the registry as it was; the name
`"litexcnc.0"` passes when `HAL_NAME_LEN` is at least 10. -/
theorem board_name_check_spec (C : Consts) (name : List Nat)
    (hlen : name.length = C.HAL_NAME_LEN + 1) :
    (board_name_check C name = none ↔
      ∃ i, 0 < i ∧ i ≤ C.HAL_NAME_LEN ∧ name.getD i 0 = 0 ∧
        ∀ j, j < i → isprint (name.getD j 0) = true) ∧
    (board_name_check C name ≠ none → board_name_check C name = some (-EINVAL)) ∧
    (board_name_check C name ≠ none →
      ∀ (env : RegisterEnv) (R : List Nat) (a : Nat) (config : Config),
        env.board = some a → a ∉ R →
        compat_gate C env.verify_config env.version env.config_fingerprint env.fingerprint = 0 →
        env.config = some config → config.board_name = some name →
        (litexcnc_register C env R).result = some (-EINVAL) ∧
        (litexcnc_register C env R).litexcnc_list = R) ∧
    (10 ≤ C.HAL_NAME_LEN → name.take 11 = default_board_name ++ [0] →
      board_name_check C name = none) := by
  have _ := hlen
  refine ⟨board_name_check_none_iff C name, board_name_check_error C name, ?_, ?_⟩
  · intro hne env R a config hb ha hg hc hname
    have hbn : board_name_of env config = name := by
      simp [board_name_of, hname]
    have he := board_name_check_error C name hne
    rw [register_name_rejected C env R a config (-EINVAL) hb hg hc (by rw [hbn]; exact he)]
    exact ⟨rfl, erase_added R a ha⟩
  · intro hN htake
    rw [board_name_check_none_iff]
    have hget : ∀ j, j < 11 → name.getD j 0 = (default_board_name ++ [0]).getD j 0 := by
      intro j hj
      rw [← htake]
      simp [List.getD_eq_getElem?_getD, List.getElem?_take, hj]
    refine ⟨10, by omega, hN, ?_, ?_⟩
    · rw [hget 10 (by omega)]; rfl
    · intro j hj
      rw [hget j (by omega)]
      interval_cases j <;> rfl

/-- Witness for `board_name_check_spec`: the 48-byte buffer holding `"litexcnc.0"`. -/
theorem board_name_check_spec_witness : board_name_check sample_consts sample_name = none :=
  (board_name_check_spec sample_consts sample_name (by decide)).2.2.2 (by decide) (by decide)

/-- Witness for `config_handshake_once_and_first`: two reads, a write, a read
and a write on the sample board. -/
theorem config_handshake_once_and_first_witness :
    (trace sample_consts sample_ops sample_board
        [.read 1000000, .read 1000000, .write 1000000, .read 1000000, .write 1000000]).countP
      Call.is_write_config = 1 ∧
    (litexcnc_write sample_consts sample_ops
        (state_after sample_consts sample_ops sample_board [.read 1000000, .read 1000000])
        1000000).2.countP Call.is_fpga_write = 0 :=
  ⟨(config_handshake_once_and_first sample_consts sample_ops sample_board rfl).2.2.1
      [.read 1000000, .read 1000000, .write 1000000, .read 1000000, .write 1000000],
   ((config_handshake_once_and_first sample_consts sample_ops sample_board rfl).1
      [.read 1000000, .read 1000000] 1000000 (by decide)).2⟩

/-- C6: the code leaves the instance in the registry on three failing steps.
With `NULL` from the allocation of the write buffer, or of the read buffer,
the run ends at `memset` without a return and the registry still holds the
instance 4096 added at line 177; with `NULL` from `fopen` it ends at `fseek`
in the same way. A failure the code does detect (a failing reset) deletes the
instance again, and the run without a failure appends it once. -/
theorem register_failure_leaves_instance_linked :
    ((litexcnc_register sample_consts { sample_env with write_buffer := none }
        sample_registry).result = none ∧
      (litexcnc_register sample_consts { sample_env with write_buffer := none }
        sample_registry).litexcnc_list = sample_registry ++ [4096] ∧
      (litexcnc_register sample_consts { sample_env with write_buffer := none }
        sample_registry).litexcnc_list ≠ sample_registry) ∧
    ((litexcnc_register sample_consts { sample_env with read_buffer := none }
        sample_registry).result = none ∧
      (litexcnc_register sample_consts { sample_env with read_buffer := none }
        sample_registry).litexcnc_list = sample_registry ++ [4096]) ∧
    ((litexcnc_register_file sample_consts none sample_env sample_registry).result = none ∧
      (litexcnc_register_file sample_consts none sample_env sample_registry).litexcnc_list =
        sample_registry ++ [4096]) ∧
    (litexcnc_register_file sample_consts (some 16384) sample_env sample_registry =
      litexcnc_register sample_consts sample_env sample_registry) ∧
    ((litexcnc_register sample_consts { sample_env with reset := -1 }
        sample_registry).result = some (-1) ∧
      (litexcnc_register sample_consts { sample_env with reset := -1 }
        sample_registry).litexcnc_list = sample_registry) ∧
    ((litexcnc_register sample_consts sample_env sample_registry).result = some 0 ∧
      (litexcnc_register sample_consts sample_env sample_registry).litexcnc_list =
        sample_registry ++ [4096] ∧
      (sample_registry ++ [4096]).count 4096 = 1) := by
  decide

end LitexCNC
